import Mathlib

/-!
# beanstalkd_exporter: startup and config-watcher logic of `main.go`

A shallow embedding of `main.go`:

* `allFields`        the catalog of stat field names (lines 15-31);
* `watchConfig`      the watcher task (lines 50-81), as a setup phase followed
                     by a fold of `handle` over the notifications received;
* `main`             the startup sequence (lines 83-138), split in `loadFields`
                     (lines 99-107) and `serve` (lines 109-137).

Go strings are modelled by Lean strings (a file content is therefore taken to be
valid UTF-8; the separator used by the program is the one-byte newline, so
byte-wise and character-wise splitting agree).  The process is modelled by a
record `Proc`: the globals of the program, the observable calls made so far
(`effects`) and a flag `exited` that is set by `log.Fatal` (it logs and calls
`os.Exit(1)`, which ends every goroutine of the process) and by a panic that
nothing recovers (`http.Handle` and `http.HandleFunc` panic on a pattern the
default mux refuses).

`main` and `watchConfig` are two goroutines.  Each is modelled as the run of its
own statements; `main` records the `go watchConfig(...)` statement as a call and
does not run the watcher.  What `main` says of `exited` is therefore what the
statements of `main` do: the watcher can end the process on its own, at any
time after it is started.

The methods of `tubeMapper` and the constructor `NewExporter` live in other
files of the repository; `main.go` only calls them.  They enter the model as
parameters: `initFromFile` may do anything to the mapping held by the mapper and
returns an optional error.
-/

namespace BeanstalkdExporter

/-! ## Catalog -/

/-- The catalog `allFields` of `main.go`, lines 16-30. -/
def allFields : List String :=
  [ "current-jobs-urgent",
    "current-jobs-ready",
    "current-jobs-reserved",
    "current-jobs-delayed",
    "current-jobs-buried",
    "total-jobs",
    "current-using",
    "current-waiting",
    "current-watching",
    "pause",
    "cmd-delete",
    "cmd-pause-tube",
    "pause-time-left" ]

/-! ## `strings.Split` of the Go standard library, for a one-byte separator -/

/-- Go `strings.Count(s, sep)` for a one-character separator. -/
def Count (sep : Char) (s : List Char) : Nat :=
  s.count sep

/-- Go `strings.Index(s, sep)` for a one-character separator; `none` is Go's `-1`. -/
def Index (sep : Char) : List Char → Option Nat
  | [] => none
  | c :: cs => if c = sep then some 0 else (Index sep cs).map (· + 1)

/-- The loop of Go `genSplit` with `sepSave = 0`: at most `n` cuts, each at the
first occurrence of the separator in what is left; the rest is the last piece. -/
def genSplit (sep : Char) : Nat → List Char → List (List Char)
  | 0, s => [s]
  | n + 1, s =>
    match Index sep s with
    | none => [s]
    | some m => s.take m :: genSplit sep n (s.drop (m + 1))

/-- Go `strings.Split(s, sep)` for a one-character separator:
`genSplit(s, sep, 0, -1)`, where the number of cuts is `Count(s, sep)`. -/
def Split (s : String) (sep : Char) : List String :=
  (genSplit sep (Count sep s.data) s.data).map String.mk

/-! ## The process -/

/-- Flags of `github.com/howeyc/fsnotify` that the program passes to `WatchFlags`. -/
inductive WatchFlag where
  | FSN_MODIFY
  deriving DecidableEq, Repr

/-- Levels of the logger used by `main.go`. -/
inductive Level where
  | warn
  | error
  | fatal
  deriving DecidableEq, Repr

/-- Calls of `main.go` into its collaborators, in the order they are made. -/
inductive Effect where
  | log (lvl : Level) (msg : String)
  | newTubeMapper
  | newWatcher
  | watchFlags (fileName : String) (flags : WatchFlag)
  | initFromFile (fileName : String)
  | inc (label : String)
  | goWatchConfig (fileName : String)
  | readFile (path : String)
  | newExporter (address : String) (fields : List String)
  | mustRegister
  | httpHandle (pattern : String)
  | panic (v : String)
  | listenAndServe (addr : String)
  deriving DecidableEq, Repr

/-- The exporter built by `NewExporter(address, fields)` followed by
`SetConnectionTimeout`. -/
structure Exporter where
  address : String
  fields : List String
  connectionTimeout : Int
  deriving DecidableEq, Repr

/-- State of the process: `mappings` and `configLoads` are the mapping and the
counter vector `configLoadsMetric` held by the global `mapper`, `fields` is the
global `fields`, `exporter` and `registered` describe the exporter of `main`,
`patterns` are the patterns registered on the default mux of `net/http`,
`err` is the local variable `err` of `watchConfig`, `effects` lists the calls
made so far and `exited` says that `log.Fatal` or a panic has ended the
process. -/
structure Proc (M : Type) where
  mappings : M
  configLoads : String → Nat
  fields : List String
  exporter : Option Exporter
  registered : Bool
  patterns : List String
  err : Option String
  effects : List Effect
  exited : Bool

/-- Appends one call to the record of calls made. -/
def Proc.emit {M : Type} (p : Proc M) (e : Effect) : Proc M :=
  { p with effects := p.effects ++ [e] }

/-- The call `log.Fatal(msg)`: logs, then `os.Exit(1)`. -/
def logFatal {M : Type} (msg : String) (p : Proc M) : Proc M :=
  { p.emit (.log .fatal msg) with exited := true }

/-- A panic with value `v` that nothing recovers: the process ends. -/
def goPanic {M : Type} (v : String) (p : Proc M) : Proc M :=
  { p.emit (.panic v) with exited := true }

/-- The call `configLoadsMetric.WithLabelValues(label).Inc()`. -/
def incConfigLoads {M : Type} (label : String) (p : Proc M) : Proc M :=
  { p.emit (.inc label) with
    configLoads := fun l => if l = label then p.configLoads l + 1 else p.configLoads l }

/-! ## `watchConfig` -/

/-- What the watcher receives in one round of its `select`: a file-change event
on `watcher.Event`, or an error on `watcher.Error`.  An event carries what the
outside world answers while it is handled: `load` is the behaviour of
`mapper.initFromFile` at that moment (new mapping and returned error), `rearm`
the error returned by the `WatchFlags` call that follows. -/
inductive Notification (M : Type) where
  | Event (ev : String) (load : String → M → M × Option String) (rearm : Option String)
  | Error (err : String)

/-- Whether a notification is a file-change event. -/
def Notification.isEvent {M : Type} : Notification M → Bool
  | .Event _ _ _ => true
  | .Error _ => false

/-- Answers of fsnotify during the setup of `watchConfig`: the error of
`NewWatcher()` and the error of the first `WatchFlags` call. -/
structure Setup where
  newWatcher : Option String
  watchFlags : Option String

/-- One round of the `select` of `watchConfig`, lines 62-79. -/
def handle {M : Type} (fileName : String) (n : Notification M) (p : Proc M) : Proc M :=
  match n with
  | .Event ev load rearm =>
    let p := p.emit (.log .warn ("Config file changed (" ++ ev ++ "), attempting reload"))
    let r := load fileName p.mappings
    let p := { p.emit (.initFromFile fileName) with mappings := r.1, err := r.2 }
    let p :=
      match r.2 with
      | some e =>
        incConfigLoads "failure" (p.emit (.log .error ("Error reloading config: " ++ e)))
      | none =>
        incConfigLoads "success" (p.emit (.log .warn "Config reloaded successfully"))
    { p.emit (.watchFlags fileName .FSN_MODIFY) with err := rearm }
  | .Error err =>
    p.emit (.log .error ("Error watching config: " ++ err))

/-- The `for` loop of `watchConfig`, lines 61-80, run on the notifications
received so far; the loop has no exit. -/
def loop {M : Type} (fileName : String) : List (Notification M) → Proc M → Proc M
  | [], p => p
  | n :: ns, p => loop fileName ns (handle fileName n p)

/-- The function `watchConfig(fileName, mapper)`, lines 50-81. -/
def watchConfig {M : Type} (fileName : String) (setup : Setup)
    (ns : List (Notification M)) (p : Proc M) : Proc M :=
  let p := { p.emit .newWatcher with err := setup.newWatcher }
  match setup.newWatcher with
  | some e => logFatal e p
  | none =>
    let p := { p.emit (.watchFlags fileName .FSN_MODIFY) with err := setup.watchFlags }
    match setup.watchFlags with
    | some e => logFatal e p
    | none => loop fileName ns p

/-! ## `main` -/

/-- The command-line flags of `main.go`, lines 33-41, with their defaults. -/
structure Flags where
  address : String := "localhost:11300"
  connectionTimeout : Int := 0
  logLevel : String := "warning"
  mappingConfig : String := ""
  fieldConfig : String := ""
  sleepBetweenStats : Int := 5000
  numTubeStatWorkers : Int := 1
  listenAddress : String := ":8080"
  metricsPath : String := "/metrics"

/-- Answers of the outside world to `main`: the mapping of a fresh mapper, the
behaviour of `mapper.initFromFile`, of `ioutil.ReadFile`, of the default mux of
`net/http` when a handler is registered (`muxPanic registered pattern` is the
value it panics with, if it refuses `pattern` while holding `registered`) and of
`http.ListenAndServe` (`none`: it serves and never returns; `some e`: it returns
the error `e`). -/
structure Env (M : Type) where
  newTubeMapper : M
  initFromFile : String → M → M × Option String
  readFile : String → Except String String
  muxPanic : List String → String → Option String
  listenAndServe : String → Option String

/-- The process when `main` starts: globals at their zero values. -/
def Proc.start {M : Type} (m : M) : Proc M :=
  { mappings := m, configLoads := fun _ => 0, fields := [], exporter := none,
    registered := false, patterns := [], err := none, effects := [], exited := false }

/-- Lines 99-107 of `main`: the field list. -/
def loadFields {M : Type} (flags : Flags) (env : Env M) (p : Proc M) : Proc M :=
  let p := { p with fields := allFields }
  if flags.fieldConfig ≠ "" then
    let p := p.emit (.readFile flags.fieldConfig)
    match env.readFile flags.fieldConfig with
    | .error e =>
      p.emit (.log .warn ("Error loading fields config, defaulting to all fields: " ++ e ++ "\n"))
    | .ok fieldsFile => { p with fields := Split fieldsFile '\n' }
  else p

/-- Lines 109-137 of `main`: exporter, registration, the two handlers
(`http.Handle(*metricsPath, ...)` at line 114, `http.HandleFunc("/", ...)` at
line 119, each of which panics when the mux refuses the pattern), listening. -/
def serve {M : Type} (flags : Flags) (env : Env M) (p : Proc M) : Proc M :=
  let exporter : Exporter :=
    { address := flags.address, fields := p.fields,
      connectionTimeout := flags.connectionTimeout }
  let p := { p.emit (.newExporter flags.address p.fields) with exporter := some exporter }
  let p := { p.emit .mustRegister with registered := true }
  let p := p.emit (.httpHandle flags.metricsPath)
  match env.muxPanic p.patterns flags.metricsPath with
  | some v => goPanic v p
  | none =>
    let p := { p with patterns := p.patterns ++ [flags.metricsPath] }
    let p := p.emit (.httpHandle "/")
    match env.muxPanic p.patterns "/" with
    | some v => goPanic v p
    | none =>
      let p := { p with patterns := p.patterns ++ ["/"] }
      let p := p.emit (.log .warn ("Listening on port " ++ flags.listenAddress ++ " ."))
      let p := p.emit (.listenAndServe flags.listenAddress)
      match env.listenAndServe flags.listenAddress with
      | some e => logFatal e p
      | none => p

/-- The statements of the function `main`, lines 83-138, run by the main
goroutine.  The statement `go watchConfig(...)` is recorded as a call: the
watcher it starts runs `watchConfig` on its own and is not part of this run.
Lines 84-88 (flag parsing, log level) set nothing that `Proc` records and are
left out. -/
def main {M : Type} (flags : Flags) (env : Env M) : Proc M :=
  let p := (Proc.start env.newTubeMapper).emit .newTubeMapper
  if flags.mappingConfig ≠ "" then
    let r := env.initFromFile flags.mappingConfig p.mappings
    let p := { p.emit (.initFromFile flags.mappingConfig) with mappings := r.1 }
    match r.2 with
    | some e => logFatal ("Error loading mapping config:" ++ e) p
    | none =>
      serve flags env (loadFields flags env (p.emit (.goWatchConfig flags.mappingConfig)))
  else
    serve flags env (loadFields flags env p)


/-! ## Vocabulary of the statements -/

/-- Whether a recorded call is a load attempt `mapper.initFromFile(...)`. -/
def Effect.isLoad : Effect → Bool
  | .initFromFile _ => true
  | _ => false

/-- Whether a recorded call is an increment of a reload counter. -/
def Effect.isInc : Effect → Bool
  | .inc _ => true
  | _ => false

/-- The label of the reload counter incremented for a load result. -/
def reloadLabel (err : Option String) : String :=
  if err.isSome then "failure" else "success"

/-- The line logged after a load attempt. -/
def reloadLog (err : Option String) : Effect :=
  match err with
  | some e => .log .error ("Error reloading config: " ++ e)
  | none => .log .warn "Config reloaded successfully"

/-- The registration check of `http.ServeMux.Handle`: it panics on an empty
pattern and on a pattern that is already registered. -/
def classicMux (registered : List String) (pattern : String) : Option String :=
  if pattern = "" then some "http: invalid pattern"
  else if pattern ∈ registered then some ("http: multiple registrations for " ++ pattern)
  else none

/-- An outside world for worked examples.  Mappings are lists of rule texts;
loading a mapping file answers `init` (on success the mapping becomes the one
read from `path`), reading the field file answers `read`, the mux is
`classicMux`, and listening answers `listen`. -/
def exampleEnv (init : Option String) (read : Except String String)
    (listen : Option String) : Env (List String) :=
  { newTubeMapper := [],
    initFromFile := fun path m =>
      match init with
      | none => ([path], none)
      | some e => (m, some e),
    readFile := fun _ => read,
    muxPanic := classicMux,
    listenAndServe := fun _ => listen }

/-- Flags for worked examples: the two configuration paths, defaults elsewhere. -/
def exampleFlags (mappingConfig fieldConfig : String) : Flags :=
  { mappingConfig := mappingConfig, fieldConfig := fieldConfig }

/-- A file-change event whose reload succeeds with the given rules. -/
def exampleReloadOk (rules : List String) (rearm : Option String) :
    Notification (List String) :=
  .Event "mapping.conf: MODIFY" (fun _ _ => (rules, none)) rearm

/-- A file-change event whose reload fails and leaves the mapping as it was. -/
def exampleReloadFail (e : String) (rearm : Option String) : Notification (List String) :=
  .Event "mapping.conf: MODIFY" (fun _ m => (m, some e)) rearm

/-! ## Splitting a joined list of names -/

theorem Index_of_not_mem (sep : Char) (s : List Char) (h : sep ∉ s) : Index sep s = none := by
  induction s with
  | nil => rfl
  | cons c cs ih =>
    have hc : ¬ c = sep := fun e => h (by simp [e])
    have hcs : sep ∉ cs := fun m => h (List.mem_cons_of_mem _ m)
    simp [Index, hc, ih hcs]

theorem Index_append_sep (sep : Char) (a rest : List Char) (h : sep ∉ a) :
    Index sep (a ++ sep :: rest) = some a.length := by
  induction a with
  | nil => simp [Index]
  | cons c cs ih =>
    have hc : ¬ c = sep := fun e => h (by simp [e])
    have hcs : sep ∉ cs := fun m => h (List.mem_cons_of_mem _ m)
    simp [Index, hc, ih hcs]

theorem Count_of_not_mem (sep : Char) (s : List Char) (h : sep ∉ s) : Count sep s = 0 := by
  simpa [Count] using List.count_eq_zero_of_not_mem h

theorem Count_append_sep (sep : Char) (a rest : List Char) (h : sep ∉ a) :
    Count sep (a ++ sep :: rest) = Count sep rest + 1 := by
  have h0 := Count_of_not_mem sep a h
  simp only [Count] at h0 ⊢
  simp [List.count_append, h0]

theorem genSplit_of_not_mem (sep : Char) (n : Nat) (s : List Char) (h : sep ∉ s) :
    genSplit sep n s = [s] := by
  cases n with
  | zero => rfl
  | succ n => simp [genSplit, Index_of_not_mem sep s h]

theorem genSplit_append_sep (sep : Char) (n : Nat) (a rest : List Char) (h : sep ∉ a) :
    genSplit sep (n + 1) (a ++ sep :: rest) = a :: genSplit sep n rest := by
  simp [genSplit, Index_append_sep sep a rest h]

/-- Splitting at `sep` undoes joining with `sep`, for a non-empty list of
pieces free of `sep`. -/
theorem genSplit_intercalate (sep : Char) (names : List (List Char)) (hne : names ≠ [])
    (hfree : ∀ n ∈ names, sep ∉ n) :
    genSplit sep (Count sep ([sep].intercalate names)) ([sep].intercalate names) = names := by
  induction names with
  | nil => exact absurd rfl hne
  | cons a rest ih =>
    have ha : sep ∉ a := hfree a (by simp)
    cases rest with
    | nil =>
      have e : [sep].intercalate [a] = a := by simp [List.intercalate]
      rw [e, genSplit_of_not_mem sep _ a ha]
    | cons b rest =>
      have e : [sep].intercalate (a :: b :: rest) = a ++ sep :: [sep].intercalate (b :: rest) := by
        simp [List.intercalate]
      have hrest : ∀ n ∈ b :: rest, sep ∉ n := fun n hn => hfree n (List.mem_cons_of_mem _ hn)
      rw [e, Count_append_sep sep a _ ha, genSplit_append_sep sep _ a _ ha,
        ih (by simp) hrest]

theorem intercalate_go_data (sep acc : String) (l : List String) :
    (String.intercalate.go acc sep l).data
      = acc.data ++ (l.map (fun x => sep.data ++ x.data)).flatten := by
  induction l generalizing acc with
  | nil => simp [String.intercalate.go]
  | cons a as ih => simp [String.intercalate.go, ih, String.data_append]

theorem intercalate_data (sep : String) (l : List String) :
    (sep.intercalate l).data = sep.data.intercalate (l.map String.data) := by
  cases l with
  | nil => simp [String.intercalate, List.intercalate]
  | cons a as =>
    simp only [String.intercalate, intercalate_go_data]
    induction as generalizing a with
    | nil => simp [List.intercalate]
    | cons b bs ih =>
      have := ih b
      simp only [List.intercalate, List.map_cons, List.intersperse, List.flatten_cons] at this ⊢
      simp [this]

/-- Go `strings.Split(strings.Join(names, "\n"), "\n")` gives `names` back. -/
theorem Split_intercalate (names : List String) (hne : names ≠ [])
    (hfree : ∀ n ∈ names, '\n' ∉ n.data) :
    Split ("\n".intercalate names) '\n' = names := by
  have hd : ("\n" : String).data = ['\n'] := rfl
  have hne2 : names.map String.data ≠ [] := by simpa using hne
  have hfree2 : ∀ n ∈ names.map String.data, '\n' ∉ n := by
    intro n hn
    obtain ⟨x, hx, rfl⟩ := List.mem_map.1 hn
    exact hfree x hx
  unfold Split
  rw [intercalate_data, hd, genSplit_intercalate _ _ hne2 hfree2]
  simp [List.map_map, Function.comp_def]


/-! ## Frame lemmas for the steps of the process -/

section frame
variable {M : Type}

@[simp] theorem emit_effects (p : Proc M) (e : Effect) : (p.emit e).effects = p.effects ++ [e] := rfl
@[simp] theorem emit_mappings (p : Proc M) (e : Effect) : (p.emit e).mappings = p.mappings := rfl
@[simp] theorem emit_configLoads (p : Proc M) (e : Effect) :
    (p.emit e).configLoads = p.configLoads := rfl
@[simp] theorem emit_fields (p : Proc M) (e : Effect) : (p.emit e).fields = p.fields := rfl
@[simp] theorem emit_exporter (p : Proc M) (e : Effect) : (p.emit e).exporter = p.exporter := rfl
@[simp] theorem emit_registered (p : Proc M) (e : Effect) :
    (p.emit e).registered = p.registered := rfl
@[simp] theorem emit_err (p : Proc M) (e : Effect) : (p.emit e).err = p.err := rfl
@[simp] theorem emit_exited (p : Proc M) (e : Effect) : (p.emit e).exited = p.exited := rfl

theorem loadFields_exited (flags : Flags) (env : Env M) (p : Proc M) :
    (loadFields flags env p).exited = p.exited := by
  unfold loadFields
  split
  · split <;> rfl
  · rfl

theorem loadFields_fallback (flags : Flags) (env : Env M) (p : Proc M)
    (h : flags.fieldConfig = "" ∨ ∃ e, env.readFile flags.fieldConfig = .error e) :
    (loadFields flags env p).fields = allFields := by
  unfold loadFields
  rcases h with h | ⟨e, h⟩
  · simp [h]
  · split
    · simp [h]
    · rfl

theorem loadFields_ok (flags : Flags) (env : Env M) (p : Proc M) (content : String)
    (hpath : flags.fieldConfig ≠ "") (hread : env.readFile flags.fieldConfig = .ok content) :
    (loadFields flags env p).fields = Split content '\n' := by
  unfold loadFields
  simp [hpath, hread]

theorem serve_fields (flags : Flags) (env : Env M) (p : Proc M) :
    (serve flags env p).fields = p.fields := by
  unfold serve
  cases h1 : env.muxPanic p.patterns flags.metricsPath with
  | some v => simp [h1, goPanic, Proc.emit]
  | none =>
    cases h2 : env.muxPanic (p.patterns ++ [flags.metricsPath]) "/" with
    | some v => simp [h1, h2, goPanic, Proc.emit]
    | none =>
      cases h3 : env.listenAndServe flags.listenAddress <;>
        simp [h1, h2, h3, logFatal, Proc.emit]

theorem serve_exporter (flags : Flags) (env : Env M) (p : Proc M) :
    (serve flags env p).exporter
      = some ⟨flags.address, p.fields, flags.connectionTimeout⟩ := by
  unfold serve
  cases h1 : env.muxPanic p.patterns flags.metricsPath with
  | some v => simp [h1, goPanic, Proc.emit]
  | none =>
    cases h2 : env.muxPanic (p.patterns ++ [flags.metricsPath]) "/" with
    | some v => simp [h1, h2, goPanic, Proc.emit]
    | none =>
      cases h3 : env.listenAndServe flags.listenAddress <;>
        simp [h1, h2, h3, logFatal, Proc.emit]

theorem serve_registered (flags : Flags) (env : Env M) (p : Proc M) :
    (serve flags env p).registered = true := by
  unfold serve
  cases h1 : env.muxPanic p.patterns flags.metricsPath with
  | some v => simp [h1, goPanic, Proc.emit]
  | none =>
    cases h2 : env.muxPanic (p.patterns ++ [flags.metricsPath]) "/" with
    | some v => simp [h1, h2, goPanic, Proc.emit]
    | none =>
      cases h3 : env.listenAndServe flags.listenAddress <;>
        simp [h1, h2, h3, logFatal, Proc.emit]

/-- The process ends at line 114 when the mux refuses the metrics path. -/
theorem serve_panics_at_handle (flags : Flags) (env : Env M) (p : Proc M) (v : String)
    (h : env.muxPanic p.patterns flags.metricsPath = some v) :
    (serve flags env p).exited = true
      ∧ (serve flags env p).effects.getLast? = some (.panic v) := by
  unfold serve
  simp [h, goPanic, Proc.emit]

/-- The process ends at line 119 when the mux refuses the pattern `/`. -/
theorem serve_panics_at_handleFunc (flags : Flags) (env : Env M) (p : Proc M) (v : String)
    (h1 : env.muxPanic p.patterns flags.metricsPath = none)
    (h2 : env.muxPanic (p.patterns ++ [flags.metricsPath]) "/" = some v) :
    (serve flags env p).exited = true
      ∧ (serve flags env p).effects.getLast? = some (.panic v) := by
  unfold serve
  simp [h1, h2, goPanic, Proc.emit]

/-- With the mux of `net/http`, the metrics path `/` makes `main` panic at the
second registration, before it listens. -/
theorem main_panics_on_root_path :
    (main { metricsPath := "/" } (exampleEnv none (.error "unused") none)).exited = true
    ∧ (main { metricsPath := "/" } (exampleEnv none (.error "unused") none)).effects.getLast?
        = some (.panic "http: multiple registrations for /")
    ∧ (main { metricsPath := "" } (exampleEnv none (.error "unused") none)).effects.getLast?
        = some (.panic "http: invalid pattern") := by
  decide

/-- When the mapping step of `main` does not end the process, `main` is the
field step followed by the serving step, run on a live process. -/
theorem main_reach (flags : Flags) (env : Env M)
    (hreach : flags.mappingConfig = ""
      ∨ (env.initFromFile flags.mappingConfig env.newTubeMapper).2 = none) :
    ∃ p : Proc M, p.exited = false ∧ main flags env = serve flags env (loadFields flags env p) := by
  by_cases hm : flags.mappingConfig = ""
  · exact ⟨(Proc.start env.newTubeMapper).emit .newTubeMapper, rfl, by simp [main, hm]⟩
  · have hinit : (env.initFromFile flags.mappingConfig env.newTubeMapper).2 = none := by
      rcases hreach with h | h
      · exact absurd h hm
      · exact h
    refine ⟨Proc.emit
      { ((Proc.start env.newTubeMapper).emit .newTubeMapper).emit
          (.initFromFile flags.mappingConfig) with
        mappings := (env.initFromFile flags.mappingConfig env.newTubeMapper).1 }
      (.goWatchConfig flags.mappingConfig), rfl, ?_⟩
    unfold main
    simp only [hm, ne_eq, not_false_eq_true, if_true]
    simp only [emit_mappings, Proc.start]
    rw [hinit]

/-- When a mapping path is given and loading it fails, `main` stops at
`log.Fatal`, before the exporter is built. -/
theorem main_mapping_error (flags : Flags) (env : Env M) (e : String)
    (hm : flags.mappingConfig ≠ "")
    (hinit : (env.initFromFile flags.mappingConfig env.newTubeMapper).2 = some e) :
    (main flags env).exited = true ∧ (main flags env).exporter = none
      ∧ (main flags env).registered = false
      ∧ (main flags env).effects = [.newTubeMapper, .initFromFile flags.mappingConfig,
          .log .fatal ("Error loading mapping config:" ++ e)] := by
  unfold main
  simp only [hm, ne_eq, not_false_eq_true, if_true]
  simp only [emit_mappings, Proc.start]
  rw [hinit]
  simp [logFatal, Proc.emit]

end frame


/-! ## Lemmas on the watcher loop -/

section watcher
variable {M : Type}

theorem handle_event_effects (fileName ev : String) (load : String → M → M × Option String)
    (rearm : Option String) (p : Proc M) :
    (handle fileName (.Event ev load rearm) p).effects
      = p.effects ++
        [ .log .warn ("Config file changed (" ++ ev ++ "), attempting reload"),
          .initFromFile fileName,
          reloadLog (load fileName p.mappings).2,
          .inc (reloadLabel (load fileName p.mappings).2),
          .watchFlags fileName .FSN_MODIFY ] := by
  simp only [handle, emit_mappings]
  cases h : (load fileName p.mappings).2 <;>
    simp [incConfigLoads, reloadLog, reloadLabel, Proc.emit]

theorem handle_event_configLoads (fileName ev : String) (load : String → M → M × Option String)
    (rearm : Option String) (p : Proc M) (l : String) :
    (handle fileName (.Event ev load rearm) p).configLoads l
      = if l = reloadLabel (load fileName p.mappings).2 then p.configLoads l + 1
        else p.configLoads l := by
  simp only [handle, emit_mappings]
  cases h : (load fileName p.mappings).2 <;>
    simp [incConfigLoads, reloadLabel, Proc.emit]

theorem handle_event_mappings (fileName ev : String) (load : String → M → M × Option String)
    (rearm : Option String) (p : Proc M) :
    (handle fileName (.Event ev load rearm) p).mappings = (load fileName p.mappings).1 := by
  simp only [handle, emit_mappings]
  cases h : (load fileName p.mappings).2 <;>
    simp [incConfigLoads, Proc.emit]

theorem handle_event_err (fileName ev : String) (load : String → M → M × Option String)
    (rearm : Option String) (p : Proc M) :
    (handle fileName (.Event ev load rearm) p).err = rearm := by
  simp only [handle, emit_mappings]

theorem handle_fields (fileName : String) (n : Notification M) (p : Proc M) :
    (handle fileName n p).fields = p.fields := by
  cases n with
  | Error e => rfl
  | Event ev load rearm =>
    simp only [handle, emit_mappings]
    cases h : (load fileName p.mappings).2 <;> simp [incConfigLoads, Proc.emit]

theorem handle_exporter (fileName : String) (n : Notification M) (p : Proc M) :
    (handle fileName n p).exporter = p.exporter := by
  cases n with
  | Error e => rfl
  | Event ev load rearm =>
    simp only [handle, emit_mappings]
    cases h : (load fileName p.mappings).2 <;> simp [incConfigLoads, Proc.emit]

theorem handle_exited (fileName : String) (n : Notification M) (p : Proc M) :
    (handle fileName n p).exited = p.exited := by
  cases n with
  | Error e => rfl
  | Event ev load rearm =>
    simp only [handle, emit_mappings]
    cases h : (load fileName p.mappings).2 <;> simp [incConfigLoads, Proc.emit]

theorem handle_effects_extends (fileName : String) (n : Notification M) (p : Proc M) :
    ∃ rest, (handle fileName n p).effects = p.effects ++ rest := by
  cases n with
  | Error e => exact ⟨_, rfl⟩
  | Event ev load rearm => exact ⟨_, handle_event_effects fileName ev load rearm p⟩

theorem handle_configLoads_le (fileName : String) (n : Notification M) (p : Proc M)
    (l : String) : p.configLoads l ≤ (handle fileName n p).configLoads l := by
  cases n with
  | Error e => exact Nat.le_refl _
  | Event ev load rearm =>
    rw [handle_event_configLoads]
    split <;> omega

theorem handle_configLoads_sum (fileName : String) (n : Notification M) (p : Proc M) :
    (handle fileName n p).configLoads "success" + (handle fileName n p).configLoads "failure"
      = p.configLoads "success" + p.configLoads "failure" + (if n.isEvent then 1 else 0) := by
  cases n with
  | Error e => simp [handle, Notification.isEvent]
  | Event ev load rearm =>
    rw [handle_event_configLoads, handle_event_configLoads]
    cases h : (load fileName p.mappings).2 <;>
      simp [reloadLabel, Notification.isEvent] <;> omega

theorem loop_append (fileName : String) (ms ns : List (Notification M)) (p : Proc M) :
    loop fileName (ms ++ ns) p = loop fileName ns (loop fileName ms p) := by
  induction ms generalizing p with
  | nil => rfl
  | cons m ms ih => simp [loop, ih]

theorem loop_fields (fileName : String) (ns : List (Notification M)) (p : Proc M) :
    (loop fileName ns p).fields = p.fields := by
  induction ns generalizing p with
  | nil => rfl
  | cons n ns ih => simp [loop, ih, handle_fields]

theorem loop_exporter (fileName : String) (ns : List (Notification M)) (p : Proc M) :
    (loop fileName ns p).exporter = p.exporter := by
  induction ns generalizing p with
  | nil => rfl
  | cons n ns ih => simp [loop, ih, handle_exporter]

theorem loop_exited (fileName : String) (ns : List (Notification M)) (p : Proc M) :
    (loop fileName ns p).exited = p.exited := by
  induction ns generalizing p with
  | nil => rfl
  | cons n ns ih => simp [loop, ih, handle_exited]

theorem loop_effects_extends (fileName : String) (ns : List (Notification M)) (p : Proc M) :
    ∃ rest, (loop fileName ns p).effects = p.effects ++ rest := by
  induction ns generalizing p with
  | nil => exact ⟨[], by simp [loop]⟩
  | cons n ns ih =>
    obtain ⟨r1, h1⟩ := handle_effects_extends fileName n p
    obtain ⟨r2, h2⟩ := ih (handle fileName n p)
    exact ⟨r1 ++ r2, by simp [loop, h2, h1]⟩

theorem loop_configLoads_sum (fileName : String) (ns : List (Notification M)) (p : Proc M) :
    (loop fileName ns p).configLoads "success" + (loop fileName ns p).configLoads "failure"
      = p.configLoads "success" + p.configLoads "failure"
        + ns.countP Notification.isEvent := by
  induction ns generalizing p with
  | nil => simp [loop]
  | cons n ns ih =>
    simp only [loop, ih, handle_configLoads_sum, List.countP_cons]
    omega

end watcher

/-! ## Startup: the field filter and the fatal errors of `main` -/

/-- C1: in every startup that reaches field loading (no mapping path, or the
mapping loaded), if the field-config path is empty or reading the file returns
an error, the active field list, also the one handed to the exporter, is the
catalog `allFields` with its 13 names; the field-loading step never ends the
process: it leaves `exited` as it found it. -/
theorem fields_fallback_to_catalog {M : Type} (flags : Flags) (env : Env M)
    (hreach : flags.mappingConfig = ""
      ∨ (env.initFromFile flags.mappingConfig env.newTubeMapper).2 = none)
    (hfall : flags.fieldConfig = "" ∨ ∃ e, env.readFile flags.fieldConfig = .error e) :
    (main flags env).fields = allFields
      ∧ allFields.length = 13
      ∧ (main flags env).exporter
          = some ⟨flags.address, allFields, flags.connectionTimeout⟩
      ∧ (∀ p : Proc M, (loadFields flags env p).fields = allFields
          ∧ (loadFields flags env p).exited = p.exited) := by
  obtain ⟨p, _, hmain⟩ := main_reach flags env hreach
  have hf := loadFields_fallback flags env p hfall
  refine ⟨?_, by decide, ?_, ?_⟩
  · rw [hmain, serve_fields, hf]
  · rw [hmain, serve_exporter, hf]
  · intro q
    exact ⟨loadFields_fallback flags env q hfall, loadFields_exited flags env q⟩

/-- Witness of C1: a mapping file that loads and a field file that cannot be read. -/
theorem fields_fallback_to_catalog_witness :
    ((exampleFlags "mapping.conf" "fields.conf").mappingConfig = ""
      ∨ ((exampleEnv none (.error "no such file") none).initFromFile
          (exampleFlags "mapping.conf" "fields.conf").mappingConfig
          (exampleEnv none (.error "no such file") none).newTubeMapper).2 = none)
    ∧ ((exampleFlags "mapping.conf" "fields.conf").fieldConfig = ""
      ∨ ∃ e, (exampleEnv none (.error "no such file") none).readFile
          (exampleFlags "mapping.conf" "fields.conf").fieldConfig = .error e)
    ∧ (main (exampleFlags "mapping.conf" "fields.conf")
        (exampleEnv none (.error "no such file") none)).fields = allFields :=
  ⟨Or.inr rfl, Or.inr ⟨"no such file", rfl⟩,
    (fields_fallback_to_catalog (exampleFlags "mapping.conf" "fields.conf")
      (exampleEnv none (.error "no such file") none)
      (Or.inr rfl) (Or.inr ⟨"no such file", rfl⟩)).1⟩

/-- C2: in a startup that reaches field loading with a readable field-config
file whose content is a non-empty list of newline-free names joined by a
newline, the active field list, also the one handed to the exporter, is that
list of names, in the same order and of the same length. -/
theorem fields_loaded_from_file {M : Type} (flags : Flags) (env : Env M)
    (names : List String)
    (hreach : flags.mappingConfig = ""
      ∨ (env.initFromFile flags.mappingConfig env.newTubeMapper).2 = none)
    (hne : names ≠ [])
    (hfree : ∀ n ∈ names, '\n' ∉ n.data)
    (hpath : flags.fieldConfig ≠ "")
    (hread : env.readFile flags.fieldConfig = .ok ("\n".intercalate names)) :
    (main flags env).fields = names
      ∧ (main flags env).fields.length = names.length
      ∧ (main flags env).exporter = some ⟨flags.address, names, flags.connectionTimeout⟩ := by
  obtain ⟨p, _, hmain⟩ := main_reach flags env hreach
  have hf : (loadFields flags env p).fields = names := by
    rw [loadFields_ok flags env p _ hpath hread, Split_intercalate names hne hfree]
  have h1 : (main flags env).fields = names := by rw [hmain, serve_fields, hf]
  refine ⟨h1, by rw [h1], ?_⟩
  rw [hmain, serve_exporter, hf]

/-- Witness of C2: a field file with the two lines `current-jobs-ready` and
`total-jobs`. -/
theorem fields_loaded_from_file_witness :
    ((exampleFlags "" "fields.conf").mappingConfig = ""
      ∨ ((exampleEnv none (.ok "current-jobs-ready\ntotal-jobs") none).initFromFile
          (exampleFlags "" "fields.conf").mappingConfig
          (exampleEnv none (.ok "current-jobs-ready\ntotal-jobs") none).newTubeMapper).2 = none)
    ∧ ["current-jobs-ready", "total-jobs"] ≠ []
    ∧ (∀ n ∈ ["current-jobs-ready", "total-jobs"], '\n' ∉ n.data)
    ∧ (exampleFlags "" "fields.conf").fieldConfig ≠ ""
    ∧ (exampleEnv none (.ok "current-jobs-ready\ntotal-jobs") none).readFile
        (exampleFlags "" "fields.conf").fieldConfig
        = .ok ("\n".intercalate ["current-jobs-ready", "total-jobs"])
    ∧ (main (exampleFlags "" "fields.conf")
        (exampleEnv none (.ok "current-jobs-ready\ntotal-jobs") none)).fields
        = ["current-jobs-ready", "total-jobs"] :=
  ⟨Or.inl rfl, by decide, by decide, by decide, rfl,
    (fields_loaded_from_file (exampleFlags "" "fields.conf")
      (exampleEnv none (.ok "current-jobs-ready\ntotal-jobs") none)
      ["current-jobs-ready", "total-jobs"]
      (Or.inl rfl) (by decide) (by decide) (by decide) rfl).1⟩

/-- C5, the claim as stated fails: with a mapping path given and a load that
returns an error, `main` ends the process at `log.Fatal`, although listening
would not fail; no exporter is built or registered. -/
theorem mapping_error_is_fatal_example :
    (exampleFlags "mapping.conf" "").mappingConfig ≠ ""
    ∧ ((exampleEnv (some "yaml: line 1") (.error "unused") none).initFromFile
        "mapping.conf" []).2 = some "yaml: line 1"
    ∧ (exampleEnv (some "yaml: line 1") (.error "unused") none).listenAndServe ":8080" = none
    ∧ (main (exampleFlags "mapping.conf" "")
        (exampleEnv (some "yaml: line 1") (.error "unused") none)).exited = true
    ∧ (main (exampleFlags "mapping.conf" "")
        (exampleEnv (some "yaml: line 1") (.error "unused") none)).registered = false
    ∧ (main (exampleFlags "mapping.conf" "")
        (exampleEnv (some "yaml: line 1") (.error "unused") none)).exporter = none
    ∧ (main (exampleFlags "mapping.conf" "")
        (exampleEnv (some "yaml: line 1") (.error "unused") none)).effects
        = [.newTubeMapper, .initFromFile "mapping.conf",
            .log .fatal "Error loading mapping config:yaml: line 1"] := by
  decide

/-- C5 as amended: a failure to bind or serve is not the only fatal error of
`main`: in every startup in which a mapping-config path is given and loading it
returns an error, `main` ends the process through `log.Fatal` right after the
failed load; the watcher is not started, the field list is not loaded, and no
exporter is built, registered or served. -/
theorem mapping_error_exits {M : Type} (flags : Flags) (env : Env M) (e : String)
    (hm : flags.mappingConfig ≠ "")
    (hinit : (env.initFromFile flags.mappingConfig env.newTubeMapper).2 = some e) :
    (main flags env).exited = true
    ∧ (main flags env).exporter = none
    ∧ (main flags env).registered = false
    ∧ (main flags env).patterns = []
    ∧ (main flags env).fields = []
    ∧ (main flags env).effects
        = [.newTubeMapper, .initFromFile flags.mappingConfig,
            .log .fatal ("Error loading mapping config:" ++ e)] := by
  have h := main_mapping_error flags env e hm hinit
  refine ⟨h.1, h.2.1, h.2.2.1, ?_, ?_, h.2.2.2⟩
  · unfold main
    simp only [hm, ne_eq, not_false_eq_true, if_true]
    simp only [emit_mappings, Proc.start]
    rw [hinit]
    rfl
  · unfold main
    simp only [hm, ne_eq, not_false_eq_true, if_true]
    simp only [emit_mappings, Proc.start]
    rw [hinit]
    rfl

/-- Witness of C5 as amended: a mapping file that does not parse, with a
listener that would serve. -/
theorem mapping_error_exits_witness :
    (exampleFlags "rules.conf" "fields.conf").mappingConfig ≠ ""
    ∧ ((exampleEnv (some "line 3: bad pattern") (.ok "total-jobs") none).initFromFile
        (exampleFlags "rules.conf" "fields.conf").mappingConfig
        (exampleEnv (some "line 3: bad pattern") (.ok "total-jobs") none).newTubeMapper).2
        = some "line 3: bad pattern"
    ∧ (main (exampleFlags "rules.conf" "fields.conf")
        (exampleEnv (some "line 3: bad pattern") (.ok "total-jobs") none)).exited = true
    ∧ (main (exampleFlags "rules.conf" "fields.conf")
        (exampleEnv (some "line 3: bad pattern") (.ok "total-jobs") none)).exporter = none :=
  ⟨by decide, rfl,
    (mapping_error_exits (exampleFlags "rules.conf" "fields.conf")
      (exampleEnv (some "line 3: bad pattern") (.ok "total-jobs") none)
      "line 3: bad pattern" (by decide) rfl).1,
    (mapping_error_exits (exampleFlags "rules.conf" "fields.conf")
      (exampleEnv (some "line 3: bad pattern") (.ok "total-jobs") none)
      "line 3: bad pattern" (by decide) rfl).2.1⟩

/-- C9, the claim as stated fails: a readable field file with an unknown
line and a final newline puts an unrecognised name and the empty name in the
field list handed to the exporter. -/
theorem fields_outside_catalog_example :
    (main (exampleFlags "" "fields.conf")
        (exampleEnv none (.ok "total-jobs\nbogus\n") none)).fields
        = ["total-jobs", "bogus", ""]
    ∧ (main (exampleFlags "" "fields.conf")
        (exampleEnv none (.ok "total-jobs\nbogus\n") none)).exporter
        = some ⟨"localhost:11300", ["total-jobs", "bogus", ""], 0⟩
    ∧ "bogus" ∉ allFields
    ∧ "" ∉ allFields
    ∧ ¬ (∀ n ∈ (main (exampleFlags "" "fields.conf")
        (exampleEnv none (.ok "total-jobs\nbogus\n") none)).fields, n ∈ allFields) := by
  decide

/-- C9 as amended: the file is taken line by line without validation, so
every name of the active field list, also of the list handed to the exporter, is
a member of the catalog provided every newline-separated piece of a readable
field-config file is a catalog name; when field loading is reached and the file
is readable, the active field list is exactly those pieces, whatever they are. -/
theorem fields_within_catalog {M : Type} (flags : Flags) (env : Env M)
    (hlines : ∀ content, flags.fieldConfig ≠ "" →
      env.readFile flags.fieldConfig = .ok content →
      ∀ n ∈ Split content '\n', n ∈ allFields) :
    (∀ n ∈ (main flags env).fields, n ∈ allFields)
      ∧ (∀ ex, (main flags env).exporter = some ex → ∀ n ∈ ex.fields, n ∈ allFields)
      ∧ ∀ content,
          (flags.mappingConfig = ""
            ∨ (env.initFromFile flags.mappingConfig env.newTubeMapper).2 = none) →
          flags.fieldConfig ≠ "" → env.readFile flags.fieldConfig = .ok content →
          (main flags env).fields = Split content '\n' := by
  have hraw : ∀ content,
      (flags.mappingConfig = ""
        ∨ (env.initFromFile flags.mappingConfig env.newTubeMapper).2 = none) →
      flags.fieldConfig ≠ "" → env.readFile flags.fieldConfig = .ok content →
      (main flags env).fields = Split content '\n' := by
    intro content hr hpath hread
    obtain ⟨p, _, hmain⟩ := main_reach flags env hr
    rw [hmain, serve_fields, loadFields_ok flags env p content hpath hread]
  suffices h : (∀ n ∈ (main flags env).fields, n ∈ allFields)
      ∧ (∀ ex, (main flags env).exporter = some ex → ∀ n ∈ ex.fields, n ∈ allFields) from
    ⟨h.1, h.2, hraw⟩
  have hstep : ∀ p : Proc M, ∀ n ∈ (loadFields flags env p).fields, n ∈ allFields := by
    intro p n hn
    by_cases hpath : flags.fieldConfig = ""
    · rw [loadFields_fallback flags env p (Or.inl hpath)] at hn
      exact hn
    · cases hread : env.readFile flags.fieldConfig with
      | error e =>
        rw [loadFields_fallback flags env p (Or.inr ⟨e, hread⟩)] at hn
        exact hn
      | ok content =>
        rw [loadFields_ok flags env p content hpath hread] at hn
        exact hlines content hpath hread n hn
  by_cases hreach : flags.mappingConfig = ""
      ∨ (env.initFromFile flags.mappingConfig env.newTubeMapper).2 = none
  · obtain ⟨p, _, hmain⟩ := main_reach flags env hreach
    constructor
    · intro n hn
      rw [hmain, serve_fields] at hn
      exact hstep p n hn
    · intro ex hex n hn
      rw [hmain, serve_exporter] at hex
      cases hex
      exact hstep p n hn
  · have hm : flags.mappingConfig ≠ "" := fun h => hreach (Or.inl h)
    have hs : (env.initFromFile flags.mappingConfig env.newTubeMapper).2 ≠ none :=
      fun h => hreach (Or.inr h)
    obtain ⟨e, he⟩ := Option.ne_none_iff_exists'.1 hs
    have hfat := main_mapping_error flags env e hm he
    constructor
    · intro n hn
      have hnil : (main flags env).fields = [] := by
        unfold main
        simp only [hm, ne_eq, not_false_eq_true, if_true]
        simp only [emit_mappings, Proc.start]
        rw [he]
        rfl
      rw [hnil] at hn
      exact absurd hn (List.not_mem_nil n)
    · intro ex hex
      rw [hfat.2.1] at hex
      cases hex

/-- Witness of C9 as amended: a field file with the two lines `total-jobs`
and `pause`. -/
theorem fields_within_catalog_witness :
    (∀ content, (exampleFlags "" "fields.conf").fieldConfig ≠ "" →
      (exampleEnv none (.ok "total-jobs\npause") none).readFile
        (exampleFlags "" "fields.conf").fieldConfig = .ok content →
      ∀ n ∈ Split content '\n', n ∈ allFields)
    ∧ ∀ n ∈ (main (exampleFlags "" "fields.conf")
        (exampleEnv none (.ok "total-jobs\npause") none)).fields, n ∈ allFields :=
  have h : ∀ content, (exampleFlags "" "fields.conf").fieldConfig ≠ "" →
      (exampleEnv none (.ok "total-jobs\npause") none).readFile
        (exampleFlags "" "fields.conf").fieldConfig = .ok content →
      ∀ n ∈ Split content '\n', n ∈ allFields := by
    intro content _ hc
    have e : content = "total-jobs\npause" := by
      have := Except.ok.inj hc
      exact this.symm
    subst e
    decide
  ⟨h, (fields_within_catalog (exampleFlags "" "fields.conf")
      (exampleEnv none (.ok "total-jobs\npause") none) h).1⟩

/-! ## The watcher task -/

/-- C3: handling one file-change event makes exactly one load attempt, on the
watched file name, and installs what that load answers; exactly one increment of
a reload counter is made, by one: of `failure` when the load returned an error,
of `success` otherwise, the other counter and every other label being left as
they were. -/
theorem reload_counted_once {M : Type} (fileName ev : String)
    (load : String → M → M × Option String) (rearm : Option String) (p : Proc M) :
    ((handle fileName (.Event ev load rearm) p).effects.drop p.effects.length).filter
        Effect.isLoad = [.initFromFile fileName]
    ∧ (handle fileName (.Event ev load rearm) p).mappings = (load fileName p.mappings).1
    ∧ ((handle fileName (.Event ev load rearm) p).effects.drop p.effects.length).filter
        Effect.isInc
        = [.inc (if (load fileName p.mappings).2.isSome then "failure" else "success")]
    ∧ (handle fileName (.Event ev load rearm) p).configLoads "failure"
        = p.configLoads "failure" + (if (load fileName p.mappings).2.isSome then 1 else 0)
    ∧ (handle fileName (.Event ev load rearm) p).configLoads "success"
        = p.configLoads "success" + (if (load fileName p.mappings).2.isSome then 0 else 1)
    ∧ ∀ l, l ≠ "failure" → l ≠ "success" →
        (handle fileName (.Event ev load rearm) p).configLoads l = p.configLoads l := by
  refine ⟨?_, handle_event_mappings fileName ev load rearm p, ?_, ?_, ?_, ?_⟩
  · rw [handle_event_effects]
    cases h : (load fileName p.mappings).2 <;> simp [Effect.isLoad, reloadLog]
  · rw [handle_event_effects]
    cases h : (load fileName p.mappings).2 <;> simp [Effect.isInc, reloadLog, reloadLabel]
  · rw [handle_event_configLoads]
    cases h : (load fileName p.mappings).2 <;> simp [reloadLabel]
  · rw [handle_event_configLoads]
    cases h : (load fileName p.mappings).2 <;> simp [reloadLabel]
  · intro l hf hs
    rw [handle_event_configLoads]
    cases h : (load fileName p.mappings).2 <;> simp [reloadLabel, hf, hs]

/-- C4, the claim as stated fails: on an exporter that has started serving,
a watcher whose creation fails, or whose first watch fails, ends the whole
process through `log.Fatal`. -/
theorem watch_setup_error_is_fatal_example :
    (main (exampleFlags "mapping.conf" "") (exampleEnv none (.error "unused") none)).exited
        = false
    ∧ (main (exampleFlags "mapping.conf" "")
        (exampleEnv none (.error "unused") none)).registered = true
    ∧ (watchConfig "mapping.conf" ⟨some "too many open files", none⟩ []
        (main (exampleFlags "mapping.conf" "")
          (exampleEnv none (.error "unused") none))).exited = true
    ∧ (watchConfig "mapping.conf" ⟨none, some "no such file or directory"⟩ []
        (main (exampleFlags "mapping.conf" "")
          (exampleEnv none (.error "unused") none))).exited = true := by
  decide

/-- C4 as amended: when creating the watcher or establishing the first watch
returns an error, `watchConfig` calls `log.Fatal`, which ends the whole process;
no notification is handled, no load is attempted, and mapping, counters and
field list are left as they were: the calls made are the creation of the
watcher, the first watch if the creation succeeded, and the fatal log of the
error returned. -/
theorem watch_setup_error_exits {M : Type} (fileName : String) (setup : Setup)
    (ns : List (Notification M)) (p : Proc M)
    (hsetup : setup.newWatcher.isSome = true ∨ setup.watchFlags.isSome = true) :
    (watchConfig fileName setup ns p).exited = true
    ∧ (watchConfig fileName setup ns p).mappings = p.mappings
    ∧ (watchConfig fileName setup ns p).configLoads = p.configLoads
    ∧ (watchConfig fileName setup ns p).fields = p.fields
    ∧ ((watchConfig fileName setup ns p).effects.drop p.effects.length).filter
        Effect.isLoad = []
    ∧ (∃ e, (watchConfig fileName setup ns p).effects.getLast? = some (.log .fatal e))
    ∧ (watchConfig fileName setup ns p).effects
        = p.effects ++
          (match setup.newWatcher with
           | some e => [.newWatcher, .log .fatal e]
           | none =>
             [.newWatcher, .watchFlags fileName .FSN_MODIFY,
               .log .fatal (setup.watchFlags.getD "")]) := by
  obtain ⟨nw, wf⟩ := setup
  cases nw with
  | some e => simp [watchConfig, logFatal, Proc.emit, Effect.isLoad]
  | none =>
    cases wf with
    | some e => simp [watchConfig, logFatal, Proc.emit, Effect.isLoad]
    | none => simp at hsetup

/-- Witness of C4 as amended: the first watch fails while two events wait. -/
theorem watch_setup_error_exits_witness :
    ((Setup.mk none (some "no such file or directory")).newWatcher.isSome = true
      ∨ (Setup.mk none (some "no such file or directory")).watchFlags.isSome = true)
    ∧ (watchConfig "mapping.conf" ⟨none, some "no such file or directory"⟩
        [exampleReloadOk ["a"] none, exampleReloadFail "bad" none]
        (Proc.start ["old"])).exited = true
    ∧ (watchConfig "mapping.conf" ⟨none, some "no such file or directory"⟩
        [exampleReloadOk ["a"] none, exampleReloadFail "bad" none]
        (Proc.start ["old"])).mappings = ["old"] :=
  ⟨Or.inr rfl,
    (watch_setup_error_exits "mapping.conf" ⟨none, some "no such file or directory"⟩
      [exampleReloadOk ["a"] none, exampleReloadFail "bad" none]
      (Proc.start ["old"]) (Or.inr rfl)).1,
    (watch_setup_error_exits "mapping.conf" ⟨none, some "no such file or directory"⟩
      [exampleReloadOk ["a"] none, exampleReloadFail "bad" none]
      (Proc.start ["old"]) (Or.inr rfl)).2.1⟩

/-- C6: whatever the reload of a file-change event answered, the last call of
its handling is `WatchFlags` on the same file name with the modify flag; the
error of that call is only stored, the process is not ended, the loop goes on
with the notifications that follow, and everything they cause comes after. -/
theorem watch_rearmed_after_event {M : Type} (fileName ev : String)
    (load : String → M → M × Option String) (rearm : Option String)
    (ns : List (Notification M)) (p : Proc M) :
    (handle fileName (.Event ev load rearm) p).effects.getLast?
        = some (.watchFlags fileName .FSN_MODIFY)
    ∧ ((handle fileName (.Event ev load rearm) p).effects.drop p.effects.length).filter
        (fun e => decide (e = .watchFlags fileName .FSN_MODIFY))
        = [.watchFlags fileName .FSN_MODIFY]
    ∧ (handle fileName (.Event ev load rearm) p).err = rearm
    ∧ (handle fileName (.Event ev load rearm) p).exited = p.exited
    ∧ loop fileName (.Event ev load rearm :: ns) p
        = loop fileName ns (handle fileName (.Event ev load rearm) p)
    ∧ ∃ rest, (loop fileName (.Event ev load rearm :: ns) p).effects
        = (handle fileName (.Event ev load rearm) p).effects ++ rest := by
  refine ⟨?_, ?_, handle_event_err fileName ev load rearm p,
    handle_exited fileName _ p, rfl, ?_⟩
  · rw [handle_event_effects]
    simp
  · rw [handle_event_effects]
    cases h : (load fileName p.mappings).2 <;> simp [reloadLog]
  · exact loop_effects_extends fileName ns _

/-- C7: no step of the watcher writes the field list or the exporter: one
handled notification, any sequence of notifications and a whole run of
`watchConfig` leave the global `fields` and the exporter, with its fields, as
they were, in particular as `main` fixed them; and the field list that `main`
computes does not depend on notifications handled before. -/
theorem fields_never_reloaded {M : Type} (fileName : String) (setup : Setup)
    (ns : List (Notification M)) (p : Proc M) (flags : Flags) (env : Env M) :
    (∀ n : Notification M, (handle fileName n p).fields = p.fields
        ∧ (handle fileName n p).exporter = p.exporter)
    ∧ (loop fileName ns p).fields = p.fields
    ∧ (loop fileName ns p).exporter = p.exporter
    ∧ (watchConfig fileName setup ns p).fields = p.fields
    ∧ (watchConfig fileName setup ns p).exporter = p.exporter
    ∧ (watchConfig fileName setup ns (main flags env)).fields = (main flags env).fields
    ∧ (watchConfig fileName setup ns (main flags env)).exporter = (main flags env).exporter
    ∧ (loadFields flags env (loop fileName ns p)).fields = (loadFields flags env p).fields := by
  have hw : ∀ q : Proc M, (watchConfig fileName setup ns q).fields = q.fields
      ∧ (watchConfig fileName setup ns q).exporter = q.exporter := by
    intro q
    obtain ⟨nw, wf⟩ := setup
    cases nw with
    | some e => exact ⟨rfl, rfl⟩
    | none =>
      cases wf with
      | some e => exact ⟨rfl, rfl⟩
      | none =>
        simp only [watchConfig]
        rw [loop_fields, loop_exporter]
        exact ⟨rfl, rfl⟩
  refine ⟨fun n => ⟨handle_fields fileName n p, handle_exporter fileName n p⟩,
    loop_fields fileName ns p, loop_exporter fileName ns p, (hw p).1, (hw p).2,
    (hw _).1, (hw _).2, ?_⟩
  unfold loadFields
  split
  · split <;> rfl
  · rfl

/-- C10: from both reload counters at zero, after any finite sequence of
notifications their sum is the number of file-change events of the sequence;
no counter, under any label, decreases when a further notification is handled;
a watcher error makes no load attempt, changes no counter and no mapping, does
not end the process, and the loop goes on with what follows; the same count
holds for a whole run of `watchConfig` whose setup succeeds. -/
theorem counters_count_events {M : Type} (fileName : String)
    (ns : List (Notification M)) (p : Proc M)
    (hs : p.configLoads "success" = 0) (hf : p.configLoads "failure" = 0) :
    (loop fileName ns p).configLoads "success" + (loop fileName ns p).configLoads "failure"
        = ns.countP Notification.isEvent
    ∧ (∀ (ms : List (Notification M)) (n : Notification M) (l : String),
        (loop fileName ms p).configLoads l ≤ (loop fileName (ms ++ [n]) p).configLoads l)
    ∧ (∀ (q : Proc M) (e : String),
        (handle fileName (.Error e) q).configLoads = q.configLoads
        ∧ (handle fileName (.Error e) q).mappings = q.mappings
        ∧ (handle fileName (.Error e) q).exited = q.exited
        ∧ ((handle fileName (.Error e) q).effects.drop q.effects.length).filter
            Effect.isLoad = []
        ∧ ∀ rest : List (Notification M),
            loop fileName (.Error e :: rest) q
              = loop fileName rest (handle fileName (.Error e) q))
    ∧ (watchConfig fileName ⟨none, none⟩ ns p).configLoads "success"
        + (watchConfig fileName ⟨none, none⟩ ns p).configLoads "failure"
        = ns.countP Notification.isEvent := by
  refine ⟨?_, ?_, ?_, ?_⟩
  rotate_right
  · have hw : watchConfig fileName ⟨none, none⟩ ns p
        = loop fileName ns
            { (Proc.emit { p.emit .newWatcher with err := none }
                (.watchFlags fileName .FSN_MODIFY)) with err := none } := rfl
    rw [hw, loop_configLoads_sum]
    simp [hs, hf]
  · rw [loop_configLoads_sum, hs, hf]
    simp
  · intro ms n l
    rw [loop_append]
    exact handle_configLoads_le fileName n _ l
  · intro q e
    refine ⟨rfl, rfl, rfl, ?_, fun _ => rfl⟩
    simp [handle, Effect.isLoad]

/-- Witness of C10: a failed reload, a watcher error and a successful reload,
from the counters of a fresh process. -/
theorem counters_count_events_witness :
    (Proc.start ["old"]).configLoads "success" = 0
    ∧ (Proc.start ["old"]).configLoads "failure" = 0
    ∧ (loop "mapping.conf"
        [exampleReloadFail "bad" none, .Error "overflow", exampleReloadOk ["a"] (some "gone")]
        (Proc.start ["old"])).configLoads "success"
      + (loop "mapping.conf"
        [exampleReloadFail "bad" none, .Error "overflow", exampleReloadOk ["a"] (some "gone")]
        (Proc.start ["old"])).configLoads "failure"
      = [exampleReloadFail "bad" none, .Error "overflow",
          exampleReloadOk ["a"] (some "gone")].countP Notification.isEvent :=
  ⟨rfl, rfl,
    (counters_count_events "mapping.conf"
      [exampleReloadFail "bad" none, .Error "overflow", exampleReloadOk ["a"] (some "gone")]
      (Proc.start ["old"]) rfl rfl).1⟩

end BeanstalkdExporter
